import Mathlib

/-!
Verification of the registration and generation orchestrator of rest-hapi
(src/rest-hapi.js), as a shallow embedding in Lean 4.

Modelling conventions:
- JavaScript objects that matter only through their identity (database
  connection handles returned by the external driver, bound model objects
  returned by the external `.model` constructor) are represented by natural
  number ids drawn from a `fresh` allocator threaded through the state, so
  that reference equality of two returned objects is equality of ids.
- JavaScript plain-object maps (`request.connections`, `connection.models`,
  the schema registry) are association lists `List (String × α)` with
  first-match lookup and replace-or-append update, matching property read
  and property write.
- Mutation through a reference is modelled by writing the updated object
  back at the key under which it is stored.  `getConnection` called with an
  explicit name returns the object stored at exactly that key (both
  branches of its lookup collapse to that key when the name is given), so
  the write-back in `spawnModel` / `getModel` targets that key.
- Functions that can throw return an `Except String` result; where the
  claims are about state surviving a throw, the post-state is returned
  alongside the result (the source never mutates between the start of the
  statement that throws and the throw itself, so errors leave state
  unchanged).
- External collaborators (the schema-build collaborator `modelGenerator`,
  the driver `createConnection` / `.model`, the hapi server, the logging
  library) are abstracted: build results are passed in as an
  `Except String Registry` value, object construction allocates a fresh id,
  and logging is modelled as counters for the log calls the claims count.
-/

/-- First-match lookup in an association list, modelling a JavaScript
property read `obj[key]` (yielding `none` for an absent property). -/
def alookup {α : Type} : List (String × α) → String → Option α
  | [], _ => none
  | (k, v) :: rest, key => if k = key then some v else alookup rest key

/-- Replace-or-append update of an association list, modelling a JavaScript
property write `obj[key] = v`. -/
def aupdate {α : Type} : List (String × α) → String → α → List (String × α)
  | [], key, v => [(key, v)]
  | (k, w) :: rest, key, v =>
      if k = key then (key, v) :: rest else (k, w) :: aupdate rest key v

/-- Boolean test that the first character list is a prefix of the second. -/
def listPrefix : List Char → List Char → Bool
  | [], _ => true
  | _ :: _, [] => false
  | a :: as, b :: bs => a = b && listPrefix as bs

/-- Boolean test that the first character list occurs contiguously inside
the second. -/
def listInfix (sub : List Char) : List Char → Bool
  | [] => listPrefix sub []
  | b :: bs => listPrefix sub (b :: bs) || listInfix sub bs

/-- JavaScript `String.prototype.includes` restricted to what the source
uses: substring containment, as in the check for the text `no such file`
inside an error message. -/
def strIncludes (s sub : String) : Bool :=
  listInfix sub.data s.data

/-- JavaScript `String.prototype.replace` with a string pattern: replaces
only the first occurrence of the pattern. -/
def jsReplaceFirst (s pat rep : String) : String :=
  match s.splitOn pat with
  | [] => s
  | [_] => s
  | first :: rest => first ++ rep ++ String.intercalate pat rest

/-- Boolean test that `pre` is a prefix of `s`, on the character lists. -/
def strStartsWith (s pre : String) : Bool :=
  listPrefix pre.data s.data

/-- Node `path.join` restricted to the two-segment shapes the source uses:
joins two segments with exactly one separator between them. -/
def pathJoin (a b : String) : String :=
  if strStartsWith b "/" then a ++ b else a ++ "/" ++ b

/-- A schema definition in the registry: opaque model-construction data
produced by the external schema-build collaborator; identified by an id. -/
structure SchemaDef where
  sid : Nat
deriving DecidableEq

/-- The schema registry: the name-to-schema-definition object produced by
the schema-build collaborator (`internals.globalSchemas` when present). -/
abbrev Registry := List (String × SchemaDef)

/-- A bound model object held in a connection model cache.  `mid` is the
identity of the JavaScript object (allocated by the driver `.model` call);
`hasWith` records whether an `Object.assign` has attached the `with`
capability to this object. -/
structure Model where
  mid : Nat
  hasWith : Bool
deriving DecidableEq

/-- A connection record as stored by `mongooseInit` under
`request.connections[config.name]`: the object literal with fields name,
models (initially empty) and connection.  `connection` holds the id of the
live driver handle, `none` when absent or falsy. -/
structure ConnObj where
  name : String
  models : List (String × Model)
  connection : Option Nat
deriving DecidableEq

/-- The per-request context slice the claims touch: the named connection
map installed on every request by the `onRequest` extension. -/
structure RequestCtx where
  connections : List (String × ConnObj)
deriving DecidableEq

/-- The slice of `options.config.mongo` the claims read: the connection
name being resolved, the connection URI, and the configured default
connection name (`mongo.defaultConnection`, assumed configured). -/
structure MongoConfig where
  name : Option String
  URI : Option String
  defaultConnection : String
deriving DecidableEq

/-- A caller-supplied override passed to `request.connect` /
`server.methods.dbConnect` as `defaultDbConfig`. -/
structure MongoOverride where
  name : Option String := none
  URI : Option String := none
deriving DecidableEq

/-- Process-and-closure state threaded through the connection layer:
the shared `options.config.mongo` object mutated in place by `dbConnect`,
the allocator for fresh driver-handle ids (standing for the external
`mongoose.createConnection`), and the count of warnings logged. -/
structure ConnSt where
  mongo : MongoConfig
  fresh : Nat
  warns : Nat
deriving DecidableEq

/-- A JavaScript property key: `obj[x]` coerces `undefined` to the string
key "undefined". -/
def jsKey (o : Option String) : String :=
  o.getD "undefined"

/-- What `mongooseInit` returns: the raw driver connection handle on the
create path (`return connection`, line 278), or the stored connection
record on the duplicate path (`return request.connections[config.name]`,
line 264).  These are distinct JavaScript objects: the record is a fresh
object literal wrapping the handle. -/
inductive ConnectRet where
  | handle (h : Nat)
  | wrapper (c : ConnObj)
deriving DecidableEq

/-- Embedding of `mongooseInit` (src/rest-hapi.js lines 238-279).  The
logging calls, `mongoose.Promise = Promise`, the driver-option defaults
(consumed only by the external `createConnection`) and
`globals.mongoose = mongoose` are effects outside the claims and are not
modelled, except that the duplicate-path `Log.warn` is counted in
`warns`.  `createConnection` is the external driver: modelled as
allocation of a fresh handle id. -/
def mongooseInit (config : MongoConfig) (request : RequestCtx) (st : ConnSt) :
    ConnectRet × RequestCtx × ConnSt :=
  let key := jsKey config.name
  let existingLive :=
    match alookup request.connections key with
    | some existing => if existing.connection.isSome then some existing else none
    | none => none
  match existingLive with
  | some existing =>
      (ConnectRet.wrapper existing, request, { st with warns := st.warns + 1 })
  | none =>
      let h := st.fresh
      let conn : ConnObj := { name := key, models := [], connection := some h }
      (ConnectRet.handle h,
       { request with connections := aupdate request.connections key conn },
       { st with fresh := st.fresh + 1 })

/-- Embedding of the extend merge on line 87 of the source, which folds a
name-default fallback and the caller override into `dbConfig`: later
sources win per key, absent keys keep the target value, and the target is
`options.config.mongo` itself (mutated in place; the caller stores the
result back into the shared state). -/
def dbConfigMerge (mongo : MongoConfig) (ov : MongoOverride) : MongoConfig :=
  { mongo with
      name := some (ov.name.getD "default"),
      URI := match ov.URI with
             | some u => some u
             | none => mongo.URI }

/-- Embedding of the `dbConnect` closure (src/rest-hapi.js lines 85-90):
aliases `options.config.mongo`, deep-merges the name-default fallback and
the caller override into it in place, then calls `mongooseInit` with the
merged (shared) config. -/
def dbConnect (defaultDbConfig : MongoOverride) (request : RequestCtx) (st : ConnSt) :
    ConnectRet × RequestCtx × ConnSt :=
  let dbConfig := dbConfigMerge st.mongo defaultDbConfig
  let st1 := { st with mongo := dbConfig }
  mongooseInit dbConfig request st1

/-- State slice read by the model-resolution layer: the configured default
connection name (`exported.config.mongo.defaultConnection`), the process
registry (`internals.globalSchemas`; `none` models the JavaScript value
undefined), and the allocator standing for the external driver call
`connection.connection.model(name, schema, name)`. -/
structure ModelSt where
  defaultConnection : String
  globalSchemas : Option Registry
  fresh : Nat
deriving DecidableEq

/-- Embedding of `getConnection` (src/rest-hapi.js lines 186-202).  `name`
is `none` when the argument is omitted; the JavaScript default parameter
then sets it to the literal string default.  `dflt` is the configured
`exported.config.mongo.defaultConnection` read at call time. -/
def getConnection (name : Option String) (dflt : String) (request : RequestCtx) :
    Except String ConnObj :=
  let n := name.getD "default"
  let c0 := alookup request.connections dflt
  let c := if n ≠ dflt then alookup request.connections n else c0
  let missing : Except String ConnObj :=
    if n = dflt then Except.error "No database connections found."
    else Except.error ("Connection \x27" ++ n ++ "\x27 does not exists.")
  match c with
  | some conn => if conn.connection.isSome then Except.ok conn else missing
  | none => missing

/-- Embedding of `spawnModel` (src/rest-hapi.js lines 217-229).  On a cache
miss the source evaluates the registry read before the driver `.model`
call and before the cache write, so an absent schema throws with the cache
untouched; a thrown error is returned together with the unchanged state.
The cache write through the `connection` reference is modelled as a
write-back at key `connectionName`, the key `getConnection` read it from. -/
def spawnModel (name connectionName : String) (request : RequestCtx) (st : ModelSt) :
    Except String Model × RequestCtx × ModelSt :=
  match getConnection (some connectionName) st.defaultConnection request with
  | Except.error e => (Except.error e, request, st)
  | Except.ok conn =>
    match alookup conn.models name with
    | some m => (Except.ok m, request, st)
    | none =>
      match st.globalSchemas with
      | none =>
          (Except.error ("Cannot read properties of undefined (reading \x27"
              ++ name ++ "\x27)"), request, st)
      | some reg =>
        match alookup reg name with
        | none =>
            (Except.error "Cannot read properties of undefined (reading \x27Schema\x27)",
             request, st)
        | some _ =>
          let m : Model := { mid := st.fresh, hasWith := false }
          let conn2 := { conn with models := aupdate conn.models name m }
          (Except.ok m,
           { request with connections := aupdate request.connections connectionName conn2 },
           { st with fresh := st.fresh + 1 })

/-- Embedding of `getModel` (src/rest-hapi.js lines 204-215).
`connectionName` is `none` when omitted; the JavaScript default parameter
then resolves it to the configured default connection.  When the resolved
name equals the default, `Object.assign` attaches the `with` capability to
the model object in place; since `spawnModel` returned the cached object
itself, the mutation is modelled by writing the decorated model back into
the cache it lives in. -/
def getModel (name : String) (connectionName : Option String)
    (request : RequestCtx) (st : ModelSt) :
    Except String Model × RequestCtx × ModelSt :=
  let cn := connectionName.getD st.defaultConnection
  match spawnModel name cn request st with
  | (Except.error e, req1, st1) => (Except.error e, req1, st1)
  | (Except.ok m, req1, st1) =>
    if cn = st.defaultConnection then
      let m2 := { m with hasWith := true }
      let req2 :=
        match alookup req1.connections cn with
        | some conn =>
            let conn2 := { conn with models := aupdate conn.models name m2 }
            { req1 with connections := aupdate req1.connections cn conn2 }
        | none => req1
      (Except.ok m2, req2, st1)
    else
      (Except.ok m, req1, st1)

/-- The body of the `with` capability attached by `getModel` on the default
connection: the closure re-invokes `getModel` with the captured schema name
and request on the supplied connection name. -/
def modelWith (name : String) (conn : String) (request : RequestCtx) (st : ModelSt) :
    Except String Model × RequestCtx × ModelSt :=
  getModel name (some conn) request st

/-- The configuration fields `registerMrHorse` reads to resolve the policy
directory. -/
structure PolicyConfig where
  enablePolicies : Bool
  absolutePolicyPath : Bool
  policyPath : String
deriving DecidableEq

/-- Embedding of the policy-directory computation inside `registerMrHorse`
(src/rest-hapi.js lines 291-304).  `dirname` is the value of the module
directory `__dirname`; the plugin registration consuming the result is
external. -/
def registerMrHorsePolicyPath (dirname : String) (config : PolicyConfig) : String :=
  if config.enablePolicies then
    if config.absolutePolicyPath = true then
      config.policyPath
    else
      jsReplaceFirst dirname (pathJoin "node_modules" "rest-hapi") config.policyPath
  else
    pathJoin dirname "/policies"

/-- Process state touched by the schema-resolution stage of `register` and
by `generateModels`: the pre-generation flag `internals.modelsGenerated`,
the registry `internals.globalSchemas` (initially an empty object; `none`
models undefined), the exported `module.exports.schema`, a count of
invocations of the external schema-build collaborator `modelGenerator`,
and a count of `Log.error` diagnostics. -/
structure RegState where
  modelsGenerated : Bool
  globalSchemas : Option Registry
  exportsSchema : Option Registry
  buildCount : Nat
  errorLogs : Nat
deriving DecidableEq

/-- The state at process start: flag clear, registry and exported schema
the initial empty objects of lines 25 and 57, no builds, no diagnostics. -/
def initRegState : RegState :=
  { modelsGenerated := false
    globalSchemas := some []
    exportsSchema := some []
    buildCount := 0
    errorLogs := 0 }

/-- Embedding of the schema-resolution stage of `register`
(src/rest-hapi.js lines 113-134).  The surrounding stages (validator
setup, config merge, request augmentation, swagger, policy plugin, route
generation) act on external collaborators and are outside this slice.
`build` is the outcome of the external `modelGenerator` call; invoking the
collaborator bumps `buildCount` whether or not it fails.  An error whose
message contains `no such file` is logged and swallowed, leaving the local
`schema` variable undefined, which lines 133-134 then store; any other
error propagates, returned together with the state reached so far. -/
def register (build : Except String Registry) (st : RegState) :
    Except String Unit × RegState :=
  if st.modelsGenerated then
    let schema := st.globalSchemas
    (Except.ok (), { st with exportsSchema := schema, globalSchemas := schema })
  else
    let st1 := { st with buildCount := st.buildCount + 1 }
    match build with
    | Except.ok schema =>
        (Except.ok (),
         { st1 with exportsSchema := some schema, globalSchemas := some schema })
    | Except.error msg =>
        if strIncludes msg "no such file" then
          (Except.ok (),
           { st1 with errorLogs := st1.errorLogs + 1,
                      exportsSchema := none, globalSchemas := none })
        else
          (Except.error msg, st1)

/-- Embedding of `generateModels` (src/rest-hapi.js lines 151-167): sets
`internals.modelsGenerated` before anything else, merges config and
rebinds the logger (effects outside this slice), invokes the external
`modelGenerator`, and on success stores the registry; a rejected build
leaves the earlier state changes in place. -/
def generateModels (build : Except String Registry) (st : RegState) :
    Except String Registry × RegState :=
  let st1 := { st with modelsGenerated := true }
  let st2 := { st1 with buildCount := st1.buildCount + 1 }
  match build with
  | Except.ok schema =>
      (Except.ok schema,
       { st2 with globalSchemas := some schema, exportsSchema := some schema })
  | Except.error e => (Except.error e, st2)


/-- A concrete mongo configuration for exercising the connection layer. -/
def cfgC2 : MongoConfig :=
  { name := some "default", URI := some "mongodb://localhost/test",
    defaultConnection := "default" }

/-- A concrete connection-layer state holding `cfgC2` as the shared mongo
configuration, with no handles allocated and nothing logged. -/
def stC2 : ConnSt := { mongo := cfgC2, fresh := 0, warns := 0 }

/-- A concrete live connection record stored under the name primary. -/
def connPrimary : ConnObj := { name := "primary", models := [], connection := some 0 }

/-- A concrete request context holding live connections named default and
secondary with empty model caches. -/
def reqTwoConns : RequestCtx :=
  ⟨[("default", ⟨"default", [], some 10⟩), ("secondary", ⟨"secondary", [], some 11⟩)]⟩

/-- A concrete model-layer state: default connection named default, a
registry holding one schema named A, no model objects allocated yet. -/
def stModelA : ModelSt :=
  { defaultConnection := "default", globalSchemas := some [("A", ⟨0⟩)], fresh := 0 }

/-- The request context `reqTwoConns` after resolving schema A on the
default connection: the bound model is cached there, decorated. -/
def reqTwoConnsAfterA : RequestCtx :=
  ⟨[("default", ⟨"default", [("A", ⟨0, true⟩)], some 10⟩),
    ("secondary", ⟨"secondary", [], some 11⟩)]⟩

/-- The state `stModelA` after one bound model has been allocated. -/
def stModelAAfter : ModelSt :=
  { defaultConnection := "default", globalSchemas := some [("A", ⟨0⟩)], fresh := 1 }

theorem alookup_aupdate_self {α : Type} (l : List (String × α)) (k : String) (v : α) :
    alookup (aupdate l k v) k = some v := by
  induction l with
  | nil => simp [aupdate, alookup]
  | cons hd tl ih =>
      obtain ⟨k0, v0⟩ := hd
      by_cases hk : k0 = k
      · simp [aupdate, hk, alookup]
      · simp [aupdate, hk, alookup, ih]

theorem aupdate_eq_of_alookup {α : Type} (l : List (String × α)) (k : String) (v : α)
    (h : alookup l k = some v) : aupdate l k v = l := by
  induction l with
  | nil => simp [alookup] at h
  | cons hd tl ih =>
      obtain ⟨k0, v0⟩ := hd
      by_cases hk : k0 = k
      · subst hk
        simp [alookup] at h
        simp [aupdate, h]
      · simp [alookup, hk] at h
        simp [aupdate, hk, ih h]

theorem mongooseInit_mongo (config : MongoConfig) (request : RequestCtx) (st : ConnSt) :
    (mongooseInit config request st).2.2.mongo = st.mongo := by
  simp only [mongooseInit]
  split <;> rfl

theorem dbConnect_mongo (ov : MongoOverride) (request : RequestCtx) (st : ConnSt) :
    (dbConnect ov request st).2.2.mongo = dbConfigMerge st.mongo ov := by
  simp [dbConnect, mongooseInit_mongo]

/-- C5: with policies disabled the policy directory registered for the
policy engine is the module built-in default (the policies subdirectory of
the module directory); with policies enabled, an absolute path flag and a
configured path the resolved directory is exactly that configured path. -/
theorem C5_policy_directory_resolution (dirname : String) (config : PolicyConfig) :
    (config.enablePolicies = false →
      registerMrHorsePolicyPath dirname config = dirname ++ "/policies")
    ∧ (config.enablePolicies = true → config.absolutePolicyPath = true →
        config.policyPath = "/x/y" →
        registerMrHorsePolicyPath dirname config = "/x/y") := by
  have hs : strStartsWith "/policies" "/" = true := rfl
  constructor
  · intro h
    simp [registerMrHorsePolicyPath, h, pathJoin, hs]
  · intro h1 h2 h3
    simp [registerMrHorsePolicyPath, h1, h2, h3]

theorem C5_policy_directory_resolution_witness :
    registerMrHorsePolicyPath "/app/node_modules/rest-hapi"
      { enablePolicies := false, absolutePolicyPath := false, policyPath := "p" }
      = "/app/node_modules/rest-hapi" ++ "/policies"
    ∧ registerMrHorsePolicyPath "/app/node_modules/rest-hapi"
      { enablePolicies := true, absolutePolicyPath := true, policyPath := "/x/y" }
      = "/x/y" :=
  ⟨(C5_policy_directory_resolution "/app/node_modules/rest-hapi" _).1 rfl,
   (C5_policy_directory_resolution "/app/node_modules/rest-hapi" _).2 rfl rfl rfl⟩

/-- C9: the dbConnect parameter merge acts in place on the shared
process-wide mongo configuration: after one request connects with a URI
override, the shared config holds the override and the name-default
fallback, and a later connect call with no override (from any request)
resolves its parameters from that mutated shared config, still seeing the
earlier URI. -/
theorem C9_dbconnect_mutates_shared_mongo_config
    (st : ConnSt) (req1 req2 : RequestCtx) (u : String) :
    ((dbConnect { name := none, URI := some u } req1 st).2.2.mongo.URI = some u)
    ∧ ((dbConnect { name := none, URI := some u } req1 st).2.2.mongo.name = some "default")
    ∧ ((dbConnect { } req2 (dbConnect { name := none, URI := some u } req1 st).2.2).2.2.mongo.URI
        = some u) := by
  refine ⟨?_, ?_, ?_⟩ <;> simp [dbConnect_mongo, dbConfigMerge]

/-- C10: generateModels raises the process-wide models-generated flag
before the build outcome is known and the flag (and previously stored
registry) survive a build failure; a subsequent register therefore skips
the build collaborator entirely and proceeds, exporting whatever registry
value was previously stored. -/
theorem C10_pregeneration_flag_not_rolled_back (e : String) (st : RegState)
    (build2 : Except String Registry) :
    ((generateModels (Except.error e) st).1 = Except.error e)
    ∧ ((generateModels (Except.error e) st).2.modelsGenerated = true)
    ∧ ((generateModels (Except.error e) st).2.globalSchemas = st.globalSchemas)
    ∧ ((register build2 (generateModels (Except.error e) st).2).2.buildCount
        = (generateModels (Except.error e) st).2.buildCount)
    ∧ ((register build2 (generateModels (Except.error e) st).2).1 = Except.ok ())
    ∧ ((register build2 (generateModels (Except.error e) st).2).2.exportsSchema
        = st.globalSchemas) := by
  refine ⟨rfl, rfl, rfl, ?_, ?_, ?_⟩ <;> simp [register, generateModels]

/-- C1 counterexample: invoking register twice invokes the schema-build
collaborator twice, not once as claimed, because register never raises the
models-generated flag; at the concrete successful build below the
invocation count after two register calls is two. -/
theorem C1_counterexample_register_twice_builds_twice :
    (register (Except.ok [("A", ⟨0⟩)])
        (register (Except.ok [("A", ⟨0⟩)]) initRegState).2).2.buildCount = 2
    ∧ (register (Except.ok [("A", ⟨0⟩)])
        (register (Except.ok [("A", ⟨0⟩)]) initRegState).2).2.buildCount ≠ 1 :=
  ⟨rfl, by decide⟩

/-- C1 (amended): the schema-build collaborator is invoked exactly once
when generateModels precedes register, and the later register returns the
cached registry; but register alone never sets the models-generated flag,
so two register calls invoke the collaborator once each (two invocations
in total). -/
theorem C1_amended_build_once_only_after_pregeneration
    (build : Except String Registry) (r : Registry) :
    ((register build (generateModels build initRegState).2).2.buildCount = 1)
    ∧ ((register build (register build initRegState).2).2.buildCount = 2)
    ∧ (register (Except.ok r) (generateModels (Except.ok r) initRegState).2
        = (Except.ok (),
           { modelsGenerated := true, globalSchemas := some r,
             exportsSchema := some r, buildCount := 1, errorLogs := 0 })) := by
  refine ⟨?_, ?_, rfl⟩
  · cases build with
    | ok s => rfl
    | error msg => simp [generateModels, register, initRegState]
  · cases build with
    | ok s => rfl
    | error msg =>
        by_cases hmsg : strIncludes msg "no such file" = true
        · simp [register, initRegState, hmsg]
        · simp [register, initRegState, hmsg]

/-- C3: during the schema-resolution stage of register, a build failure
whose message carries the missing-policy-path signature (the text
`no such file`) is logged and swallowed and registration continues without
schemas; any other build failure propagates and aborts registration. -/
theorem C3_build_error_policy_signature_swallowed (st : RegState) (msg : String)
    (hgen : st.modelsGenerated = false) :
    (strIncludes msg "no such file" = true →
      (register (Except.error msg) st).1 = Except.ok ()
      ∧ (register (Except.error msg) st).2.errorLogs = st.errorLogs + 1
      ∧ (register (Except.error msg) st).2.globalSchemas = none
      ∧ (register (Except.error msg) st).2.exportsSchema = none)
    ∧ (strIncludes msg "no such file" = false →
      register (Except.error msg) st
        = (Except.error msg, { st with buildCount := st.buildCount + 1 })) := by
  constructor
  · intro h
    simp [register, hgen, h]
  · intro h
    simp [register, hgen, h]

theorem C3_build_error_witness :
    (register (Except.error "ENOENT: no such file or directory, scandir") initRegState).1
      = Except.ok ()
    ∧ register (Except.error "boom") initRegState
        = (Except.error "boom",
           { initRegState with buildCount := initRegState.buildCount + 1 }) :=
  ⟨((C3_build_error_policy_signature_swallowed initRegState _ rfl).1 (by decide)).1,
   (C3_build_error_policy_signature_swallowed initRegState "boom" rfl).2 (by decide)⟩


/-- C2 counterexample: on an empty request context the first connect call
returns the raw driver handle while the second call with the same resolved
name returns the stored connection record, a distinct object wrapping that
handle; so the second return value is not reference-equal to the first
return value, contrary to the claim. -/
theorem C2_counterexample_second_return_not_first :
    (mongooseInit cfgC2 (mongooseInit cfgC2 ⟨[]⟩ stC2).2.1
        (mongooseInit cfgC2 ⟨[]⟩ stC2).2.2).1
      ≠ (mongooseInit cfgC2 ⟨[]⟩ stC2).1 := by
  decide

/-- C2 (amended): a second connect call with the same resolved connection
name returns the stored connection record unchanged — the same record on
every repeat call, wrapping the live handle the first call returned, but
not reference-equal to the first return value, which was the raw handle —
logs exactly one warning (none on the first call), and never replaces the
existing live connection entry. -/
theorem C2_amended_second_call_returns_stored_record (config : MongoConfig)
    (request : RequestCtx) (st : ConnSt)
    (h : alookup request.connections (jsKey config.name) = none) :
    ∃ hId conn req1 st1,
      mongooseInit config request st = (ConnectRet.handle hId, req1, st1)
      ∧ alookup req1.connections (jsKey config.name) = some conn
      ∧ conn.connection = some hId
      ∧ st1.warns = st.warns
      ∧ mongooseInit config req1 st1
          = (ConnectRet.wrapper conn, req1, { st1 with warns := st1.warns + 1 })
      ∧ ConnectRet.wrapper conn ≠ ConnectRet.handle hId := by
  refine ⟨st.fresh, ⟨jsKey config.name, [], some st.fresh⟩,
    ⟨aupdate request.connections (jsKey config.name) ⟨jsKey config.name, [], some st.fresh⟩⟩,
    { st with fresh := st.fresh + 1 },
    ?_, ?_, rfl, rfl, ?_, ?_⟩
  · simp [mongooseInit, h]
  · exact alookup_aupdate_self _ _ _
  · simp [mongooseInit, alookup_aupdate_self]
  · simp

theorem C2_amended_witness :
    ∃ hId conn req1 st1,
      mongooseInit cfgC2 (⟨[]⟩ : RequestCtx) stC2 = (ConnectRet.handle hId, req1, st1)
      ∧ alookup req1.connections (jsKey cfgC2.name) = some conn
      ∧ conn.connection = some hId
      ∧ st1.warns = stC2.warns
      ∧ mongooseInit cfgC2 req1 st1
          = (ConnectRet.wrapper conn, req1, { st1 with warns := st1.warns + 1 })
      ∧ ConnectRet.wrapper conn ≠ ConnectRet.handle hId :=
  C2_amended_second_call_returns_stored_record cfgC2 ⟨[]⟩ stC2 (by decide)

theorem getConnection_some_of_alookup (c d : String) (request : RequestCtx)
    (conn : ConnObj) (h : alookup request.connections c = some conn)
    (hl : conn.connection.isSome = true) :
    getConnection (some c) d request = Except.ok conn := by
  by_cases hcd : c = d
  · subst hcd
    simp [getConnection, h, hl]
  · simp [getConnection, hcd, h, hl]

/-- C4 counterexample: with the configured default connection named
primary and a live connection stored under that name, getConnection with
its name argument omitted does not resolve the configured default: the
omitted argument falls back to the literal string default, the lookup
misses, and the call throws the named-lookup error (whose message also
reads does not exists, not does not exist), instead of returning the live
default connection as the claim requires. -/
theorem C4_counterexample_omitted_name_not_config_default :
    getConnection none "primary" ⟨[("primary", connPrimary)]⟩
      = Except.error ("Connection \x27default\x27 does not exists.")
    ∧ getConnection none "primary" ⟨[("primary", connPrimary)]⟩
      ≠ Except.ok connPrimary := by
  have h1 : getConnection none "primary" ⟨[("primary", connPrimary)]⟩
      = Except.error ("Connection \x27default\x27 does not exists.") := rfl
  exact ⟨h1, by rw [h1]; simp⟩

/-- C4 (amended): an omitted name argument defaults to the literal string
default rather than to the configured default connection name; when the
(possibly defaulted) name equals the configured default and no such
connection exists the call throws No database connections found., and for
a name different from the configured default that is absent it throws the
error Connection <name> does not exists.; neither case is retried and
neither dereferences a missing connection (the lookup is checked before
any field access). -/
theorem C4_amended_connection_lookup_errors (name dflt : String) (req : RequestCtx) :
    getConnection none dflt req = getConnection (some "default") dflt req
    ∧ (alookup req.connections dflt = none →
        getConnection (some dflt) dflt req
          = Except.error "No database connections found.")
    ∧ (name ≠ dflt → alookup req.connections name = none →
        getConnection (some name) dflt req
          = Except.error ("Connection \x27" ++ name ++ "\x27 does not exists.")) := by
  refine ⟨rfl, ?_, ?_⟩
  · intro h
    simp [getConnection, h]
  · intro hne h
    simp [getConnection, hne, h]

theorem C4_amended_witness :
    getConnection (some "primary") "primary" (⟨[]⟩ : RequestCtx)
      = Except.error "No database connections found."
    ∧ getConnection (some "x") "primary" (⟨[]⟩ : RequestCtx)
      = Except.error ("Connection \x27x\x27 does not exists.") :=
  ⟨(C4_amended_connection_lookup_errors "x" "primary" ⟨[]⟩).2.1 rfl,
   (C4_amended_connection_lookup_errors "x" "primary" ⟨[]⟩).2.2 (by decide) rfl⟩

/-- C7: for a schema name absent from the registry, getModel on a live
connection with no cached model for that name throws the TypeError from
reading the construction data of an undefined registry entry — it does not
return a model — and the request state and allocator are returned
unchanged: no entry is added to the connection model cache. -/
theorem C7_absent_schema_fails_without_cache_write (name cn : String)
    (request : RequestCtx) (st : ModelSt) (conn : ConnObj) (reg : Registry)
    (hconn : alookup request.connections cn = some conn)
    (hlive : conn.connection.isSome = true)
    (hmiss : alookup conn.models name = none)
    (hreg : st.globalSchemas = some reg)
    (habsent : alookup reg name = none) :
    getModel name (some cn) request st
      = (Except.error "Cannot read properties of undefined (reading \x27Schema\x27)",
         request, st) := by
  have hgc := getConnection_some_of_alookup cn st.defaultConnection request conn hconn hlive
  simp [getModel, spawnModel, hgc, hmiss, hreg, habsent]

theorem C7_absent_schema_witness :
    getModel "B" (some "default") reqTwoConns stModelA
      = (Except.error "Cannot read properties of undefined (reading \x27Schema\x27)",
         reqTwoConns, stModelA) :=
  C7_absent_schema_fails_without_cache_write "B" "default" reqTwoConns stModelA
    ⟨"default", [], some 10⟩ [("A", ⟨0⟩)] (by decide) rfl rfl rfl rfl

/-- C8: a model resolved for the default connection is decorated with the
with capability, so the model carries it and its body re-resolves the same
schema name against the supplied other connection exactly as getModel
would; a model resolved for a non-default connection goes through no
decoration step at all, being exactly the spawnModel result. -/
theorem C8_default_connection_with_capability (name c : String)
    (request req1 : RequestCtx) (st st1 : ModelSt) (m : Model)
    (h : getModel name (some st.defaultConnection) request st
          = (Except.ok m, req1, st1)) :
    m.hasWith = true
    ∧ modelWith name c req1 st1 = getModel name (some c) req1 st1
    ∧ (∀ (cn : String) (req2 : RequestCtx) (st2 : ModelSt),
        cn ≠ st2.defaultConnection →
        getModel name (some cn) req2 st2 = spawnModel name cn req2 st2) := by
  refine ⟨?_, rfl, ?_⟩
  · simp only [getModel, Option.getD_some] at h
    rcases hs : spawnModel name st.defaultConnection request st with ⟨res, reqx, stx⟩
    rw [hs] at h
    cases res with
    | error e => simp at h
    | ok m0 =>
        simp at h
        obtain ⟨h1, -, -⟩ := h
        rw [← h1]
  · intro cn req2 st2 hne
    simp only [getModel, Option.getD_some]
    rcases hs : spawnModel name cn req2 st2 with ⟨res, reqx, stx⟩
    cases res with
    | error e => simp
    | ok m0 => simp [hne]

theorem C8_default_connection_with_capability_witness :
    (⟨0, true⟩ : Model).hasWith = true
    ∧ modelWith "A" "secondary" reqTwoConnsAfterA stModelAAfter
        = getModel "A" (some "secondary") reqTwoConnsAfterA stModelAAfter
    ∧ getModel "A" (some "secondary") reqTwoConnsAfterA stModelAAfter
        = spawnModel "A" "secondary" reqTwoConnsAfterA stModelAAfter := by
  obtain ⟨h1, h2, h3⟩ := C8_default_connection_with_capability "A" "secondary"
      reqTwoConns reqTwoConnsAfterA stModelA stModelAAfter ⟨0, true⟩ rfl
  exact ⟨h1, h2, h3 "secondary" reqTwoConnsAfterA stModelAAfter (by decide)⟩

theorem getConnection_some_eq (c d : String) (request : RequestCtx) :
    getConnection (some c) d request
      = (match alookup request.connections c with
         | some conn =>
             if conn.connection.isSome then Except.ok conn
             else if c = d then Except.error "No database connections found."
               else Except.error ("Connection \x27" ++ c ++ "\x27 does not exists.")
         | none =>
             if c = d then Except.error "No database connections found."
             else Except.error ("Connection \x27" ++ c ++ "\x27 does not exists.")) := by
  by_cases hcd : c = d
  · subst hcd
    simp [getConnection]
  · simp [getConnection, hcd]

theorem getConnection_ok_inv (c d : String) (request : RequestCtx) (conn : ConnObj)
    (h : getConnection (some c) d request = Except.ok conn) :
    alookup request.connections c = some conn ∧ conn.connection.isSome = true := by
  rw [getConnection_some_eq] at h
  split at h
  · next conn2 heq =>
      by_cases hx : conn2.connection.isSome = true
      · rw [if_pos hx] at h
        obtain rfl : conn2 = conn := Except.ok.inj h
        exact ⟨heq, hx⟩
      · rw [if_neg hx] at h
        split at h <;> exact absurd h (by simp)
  · next heq =>
      split at h <;> exact absurd h (by simp)

theorem spawnModel_ok (name cn : String) (request : RequestCtx) (st : ModelSt)
    (m : Model) (req1 : RequestCtx) (st1 : ModelSt)
    (h : spawnModel name cn request st = (Except.ok m, req1, st1)) :
    st1.defaultConnection = st.defaultConnection
    ∧ ∃ conn, alookup req1.connections cn = some conn
        ∧ conn.connection.isSome = true
        ∧ alookup conn.models name = some m := by
  simp only [spawnModel] at h
  split at h
  · simp at h
  · next conn heq =>
      obtain ⟨hcx, hlx⟩ := getConnection_ok_inv cn st.defaultConnection request conn heq
      split at h
      · next m0 hm =>
          simp only [Prod.mk.injEq, Except.ok.injEq] at h
          obtain ⟨h1, h2, h3⟩ := h
          subst h1
          subst h2
          subst h3
          exact ⟨rfl, conn, hcx, hlx, hm⟩
      · next hm =>
          split at h
          · simp at h
          · next reg hr =>
              split at h
              · simp at h
              · next sd ha =>
                  simp only [Prod.mk.injEq, Except.ok.injEq] at h
                  obtain ⟨h1, h2, h3⟩ := h
                  refine ⟨?_, ⟨{ conn with models := aupdate conn.models name m }, ?_, hlx, ?_⟩⟩
                  · rw [← h3]
                  · rw [← h2, ← h1]
                    exact alookup_aupdate_self _ _ _
                  · exact alookup_aupdate_self _ _ _

theorem getModel_cached (name : String) (connectionName : Option String) (cn : String)
    (request : RequestCtx) (st : ModelSt) (conn : ConnObj) (m : Model)
    (hcn : connectionName.getD st.defaultConnection = cn)
    (hconn : alookup request.connections cn = some conn)
    (hlive : conn.connection.isSome = true)
    (hm : alookup conn.models name = some m)
    (hdec : cn = st.defaultConnection → m.hasWith = true) :
    getModel name connectionName request st = (Except.ok m, request, st) := by
  have hgc := getConnection_some_of_alookup cn st.defaultConnection request conn hconn hlive
  have hspawn : spawnModel name cn request st = (Except.ok m, request, st) := by
    simp only [spawnModel, hgc, hm]
  by_cases hc : cn = st.defaultConnection
  · have hw := hdec hc
    have hm2 : ({ m with hasWith := true } : Model) = m := by
      cases m with
      | mk mid hw2 =>
          simp at hw
          simp [hw]
    simp only [getModel, hcn, hspawn]
    rw [if_pos hc]
    simp only [hconn]
    rw [hm2, aupdate_eq_of_alookup conn.models name m hm]
    have heta : ({ conn with models := conn.models } : ConnObj) = conn := rfl
    rw [heta, aupdate_eq_of_alookup request.connections cn conn hconn]
  · simp only [getModel, hcn, hspawn]
    rw [if_neg hc]

theorem getModel_ok_inv (name : String) (connectionName : Option String)
    (request req1 : RequestCtx) (st st1 : ModelSt) (m : Model)
    (h : getModel name connectionName request st = (Except.ok m, req1, st1)) :
    st1.defaultConnection = st.defaultConnection
    ∧ ∃ conn, alookup req1.connections (connectionName.getD st.defaultConnection) = some conn
        ∧ conn.connection.isSome = true
        ∧ alookup conn.models name = some m
        ∧ (connectionName.getD st.defaultConnection = st.defaultConnection →
            m.hasWith = true) := by
  simp only [getModel] at h
  split at h
  · simp at h
  · next m0 reqx stx hs =>
      obtain ⟨hd, conn, hcx, hlx, hmx⟩ := spawnModel_ok name _ request st m0 reqx stx hs
      by_cases hc : connectionName.getD st.defaultConnection = st.defaultConnection
      · rw [if_pos hc] at h
        simp only [hcx] at h
        simp only [Prod.mk.injEq, Except.ok.injEq] at h
        obtain ⟨h1, h2, h3⟩ := h
        subst h3
        refine ⟨hd, ⟨{ conn with models := aupdate conn.models name m }, ?_, hlx, ?_, ?_⟩⟩
        · rw [← h2, ← h1]
          exact alookup_aupdate_self _ _ _
        · exact alookup_aupdate_self _ _ _
        · intro hcd
          rw [← h1]
      · rw [if_neg hc] at h
        simp only [Prod.mk.injEq, Except.ok.injEq] at h
        obtain ⟨h1, h2, h3⟩ := h
        subst h1
        subst h2
        subst h3
        exact ⟨hd, conn, hcx, hlx, hmx, fun hcd => absurd hcd hc⟩

/-- C6: whenever getModel succeeds, a second getModel call with the same
schema name and connection name on the resulting state returns the
identical bound model object (same allocation id, in fact the same value)
and leaves the request state and allocator untouched; the model sits in
that connection model cache, so at most one bound model exists per schema
name and connection pair, created lazily by the first access. -/
theorem C6_second_getModel_returns_cached (name : String) (connectionName : Option String)
    (request req1 : RequestCtx) (st st1 : ModelSt) (m : Model)
    (h : getModel name connectionName request st = (Except.ok m, req1, st1)) :
    getModel name connectionName req1 st1 = (Except.ok m, req1, st1)
    ∧ ∃ conn, alookup req1.connections (connectionName.getD st.defaultConnection) = some conn
        ∧ alookup conn.models name = some m := by
  obtain ⟨hd, conn, hcx, hlx, hmx, hdec⟩ :=
    getModel_ok_inv name connectionName request req1 st st1 m h
  constructor
  · refine getModel_cached name connectionName (connectionName.getD st.defaultConnection)
        req1 st1 conn m ?_ hcx hlx hmx ?_
    · rw [hd]
    · rw [hd]
      exact hdec
  · exact ⟨conn, hcx, hmx⟩

theorem C6_second_getModel_returns_cached_witness :
    (getModel "A" none reqTwoConnsAfterA stModelAAfter
        = (Except.ok ⟨0, true⟩, reqTwoConnsAfterA, stModelAAfter))
    ∧ ∃ conn, alookup reqTwoConnsAfterA.connections
          ((none : Option String).getD stModelA.defaultConnection) = some conn
        ∧ alookup conn.models "A" = some ⟨0, true⟩ :=
  C6_second_getModel_returns_cached "A" none reqTwoConns reqTwoConnsAfterA
    stModelA stModelAAfter ⟨0, true⟩ rfl
